import Mathlib

set_option maxHeartbeats 1600000

/-!
Verification of the pattern-to-matcher compiler in `src/awpa/patcomp.py`.

The compiler's own logic (`PatternCompiler.compile_node`,
`PatternCompiler.compile_basic`, `PatternCompiler.get_int`,
`_type_of_literal`) is embedded faithfully below.  External collaborators
that the source imports from elsewhere in the repository (the `pytree`
matcher-node model, the pattern grammar's token/symbol numbering, the
target grammar handle `pygram`, and `literals.evalString`) are modelled
from the specification, each marked `Modelled from the spec:` in its doc
comment.
-/

namespace Awpa

/-- Pattern syntax-tree node as built by `pattern_convert`
(src/awpa/patcomp.py:190-196): a leaf carries a lexical type tag and its
text; an interior node carries a grammar-symbol type tag and an ordered
list of children. -/
inductive PTree : Type where
  | leaf (type : Nat) (value : String)
  | node (type : Nat) (children : List PTree)

/-- The `.type` attribute, present on both leaves and interior nodes. -/
def PTree.typeOf : PTree → Nat
  | .leaf t _ => t
  | .node t _ => t

/-- The `.children` attribute; a leaf exposes the empty list. -/
def PTree.childrenOf : PTree → List PTree
  | .leaf _ _ => []
  | .node _ cs => cs

/-- The `.value` attribute: only a leaf carries text; reading `.value` on
an interior node is an AttributeError in the source language, modelled by
`none`. -/
def PTree.valueOf : PTree → Option String
  | .leaf _ v => some v
  | .node _ _ => none

/- The `PatTok` constants are modelled from the spec: the lexical-kind
tags of the pattern grammar's token module (`self.grammar.token`), which
lives outside `src/`.  Only the distinctness of the tags matters; the
numbering follows the usual token module. -/
namespace PatTok

/-- Modelled from the spec: pattern-grammar token tag. -/
def NAME : Nat := 1
def NUMBER : Nat := 2
def STRING : Nat := 3
def LPAR : Nat := 7
def RPAR : Nat := 8
def LSQB : Nat := 9
def RSQB : Nat := 10
def COMMA : Nat := 12
def PLUS : Nat := 14
def STAR : Nat := 16
def LESS : Nat := 20
def GREATER : Nat := 21
def EQUAL : Nat := 22
def LBRACE : Nat := 26
def RBRACE : Nat := 27
def EXCL : Nat := 54

end PatTok

/- The `Syms` constants are modelled from the spec: the symbol tags of
the pattern grammar (`self.syms`, from `load_grammar('pattern')`, outside
`src/`).  Symbol tags are distinct from each other and from the token
tags above. -/
namespace Syms

/-- Modelled from the spec: pattern-grammar symbol tag. -/
def Matcher : Nat := 256
def Alternatives : Nat := 257
def Alternative : Nat := 258
def NegatedUnit : Nat := 259
def Unit : Nat := 260
def Repeater : Nat := 261
def Details : Nat := 262

end Syms

/-- Modelled from the spec: the distinguished "infinite" sentinel for an
unbounded repetition upper bound (`pytree.HUGE`; the spec fixes only that
a distinguished sentinel exists, not its value). -/
def HUGE : Nat := 2147483647

/-- Modelled from the spec: the target grammar handle (`self.pygram`)
together with the external collaborators reached through it — the target
token kinds used by `token_map` and `_type_of_literal`, the
operator/punctuation table `opmap`, the symbol table (`pygram.symbols`
attribute lookup), and the string-literal evaluator `literals.evalString`
(spec §6: "symbol/token resolver" and "string-literal evaluation"). -/
structure PyGram where
  tokNAME : Nat
  tokSTRING : Nat
  tokNUMBER : Nat
  opmap : String → Option Nat
  symbols : String → Option Nat
  evalString : String → String

/-- The `token_map` built in `PatternCompiler.__init__`
(src/awpa/patcomp.py:51-54): named tokens to the type value for a leaf
matcher; `TOKEN` maps to the absent kind.  `none` (outer) models
`value not in self.token_map`. -/
def tokenMap (g : PyGram) (v : String) : Option (Option Nat) :=
  if v = "NAME" then some (some g.tokNAME)
  else if v = "STRING" then some (some g.tokSTRING)
  else if v = "NUMBER" then some (some g.tokNUMBER)
  else if v = "TOKEN" then some none
  else none

/-- Failure modes of a compilation: `pse` is the user-facing
`PatternSyntaxError`; `internal` models an internal defect surfacing as an
unhandled exception of the source language (AssertionError,
UnboundLocalError, IndexError, AttributeError, ValueError). -/
inductive Err : Type where
  | pse (msg : String)
  | internal (msg : String)
deriving DecidableEq

/-- Modelled from the spec: the matcher-node model (§3) — the external
`pytree` pattern family constructed by the compiler: `LeafMatch`,
`NodeMatch`, `WildcardMatch`, `NegatedMatch`, each with an optional
capture name (§4.2 step 5 sets a name on whichever variant is
outermost). -/
inductive MPattern : Type where
  | leafP (type : Option Nat) (value : Option String) (name : Option String)
  | nodeP (type : Option Nat) (content : Option (List MPattern)) (name : Option String)
  | wildP (alternatives : List (List MPattern)) (min max : Nat) (name : Option String)
  | negP (inner : MPattern) (name : Option String)

/-- The `pattern.name = name` attribute assignment of
src/awpa/patcomp.py:138, applied to whichever matcher-node variant is
current. -/
def MPattern.setName : MPattern → String → MPattern
  | .leafP t v _, n => .leafP t v (some n)
  | .nodeP t c _, n => .nodeP t c (some n)
  | .wildP a mn mx _, n => .wildP a mn mx (some n)
  | .negP i _, n => .negP i (some n)

/-- Modelled from the spec: the matcher-node model's `optimize()`
normalization (§3: "every constructed matcher node must be passed through
its optimize() normalization").  The spec fixes only its interface and
idempotence and leaves its rules to the external matcher-engine
collaborator; on every node shape this compiler constructs there is no
redundant wrapper for it to collapse (a wildcard wrapper is only built
with several alternatives, a multi-unit sequence, or bounds other than
one-to-one), so it is modelled as the identity normalization. -/
def MPattern.optimize (p : MPattern) : MPattern := p

/-- Models the source language's `str.isupper` over the ASCII range: at
least one cased character and no lowercase character. -/
def pyIsUpper (s : String) : Bool :=
  s.data.any (fun c => c.isAlpha) && s.data.all (fun c => !c.isLower)

/-- Embeds `_type_of_literal` (src/awpa/patcomp.py:183-187): an
alphabetic first character classifies the literal with the target NAME
kind, otherwise the operator/punctuation table is consulted (its miss
yields the absent kind).  Indexing `value[0]` on the empty string is an
IndexError.  `isalpha` is modelled over the ASCII range. -/
def typeOfLiteral (g : PyGram) (value : String) : Except Err (Option Nat) :=
  match value.data with
  | [] => .error (.internal "IndexError: value[0]")
  | c :: _ => if c.isAlpha then .ok (some g.tokNAME) else .ok (g.opmap value)

/-- Models `int()` applied to a NUMBER token's text, per spec §4.4: a
base-10 non-negative integer with no surrounding whitespace, sign, or
radix; any other text is a ValueError. -/
def pyInt (s : String) : Option Nat :=
  if s.data ≠ [] ∧ s.data.all Char.isDigit then
    some (s.data.foldl (fun acc c => 10 * acc + (c.toNat - 48)) 0)
  else none

/-- Embeds `PatternCompiler.get_int` (src/awpa/patcomp.py:178-180): the
node must be a NUMBER leaf; its text is parsed as a base-10 non-negative
integer (spec §4.4). -/
def getInt (node : PTree) : Except Err Nat :=
  if node.typeOf = PatTok.NUMBER then
    match node.valueOf with
    | some v =>
      match pyInt v with
      | some n => .ok n
      | none => .error (.internal "ValueError: int()")
    | none => .error (.internal "AttributeError: Node.value")
  else .error (.internal "AssertionError: node.type == NUMBER")

/-- Embeds the name-prefix extraction of the Unit case
(src/awpa/patcomp.py:102-106), capture-name part: with at least three
children whose second is an `=` token, the first child's text is the
capture name (reading `.value` on an interior node is an
AttributeError). -/
def nameTag : List PTree → Except Err (Option String)
  | n0 :: n1 :: _ :: _ =>
    if n1.typeOf = PatTok.EQUAL then
      match n0.valueOf with
      | some v => .ok (some v)
      | none => .error (.internal "AttributeError: Node.value")
    else .ok none
  | _ => .ok none

/-- Embeds the name-prefix extraction of the Unit case
(src/awpa/patcomp.py:102-106), remainder part: when the name prefix is
present the first two children are dropped. -/
def nameRest (cs : List PTree) : List PTree :=
  match cs with
  | _ :: n1 :: c2 :: rest =>
    if n1.typeOf = PatTok.EQUAL then c2 :: rest else cs
  | _ => cs

/-- Embeds the repeat-suffix extraction of the Unit case
(src/awpa/patcomp.py:107-110): with at least two children whose last is a
`Repeater` node, that node is remembered and dropped. -/
def splitRepeat (ns : List PTree) : Option PTree × List PTree :=
  if 2 ≤ ns.length then
    match ns.getLast? with
    | some lastN =>
      if lastN.typeOf = Syms.Repeater then (some lastN, ns.dropLast)
      else (none, ns)
    | none => (none, ns)
  else (none, ns)

/-- Embeds the repeat-bounds computation of the Unit case
(src/awpa/patcomp.py:115-132): `*` gives `(0, HUGE)`, `+` gives
`(1, HUGE)`, a braced form takes its integers from children 1 and (when
five children are present) 3, after asserting the closing brace and the
child count. -/
def repeatBounds (rep : PTree) : Except Err (Nat × Nat) :=
  match rep.childrenOf with
  | [] => .error (.internal "IndexError: children[0]")
  | child :: _ =>
    if child.typeOf = PatTok.STAR then .ok (0, HUGE)
    else if child.typeOf = PatTok.PLUS then .ok (1, HUGE)
    else if child.typeOf = PatTok.LBRACE then
      let children := rep.childrenOf
      if (children.getLast?.map PTree.typeOf) ≠ some PatTok.RBRACE then
        .error (.internal "AssertionError: children[-1].type == RBRACE")
      else if children.length = 3 then
        match children[1]? with
        | some c1 =>
          match getInt c1 with
          | .error e => .error e
          | .ok n => .ok (n, n)
        | none => .error (.internal "unreachable")
      else if children.length = 5 then
        match children[1]?, children[3]? with
        | some c1, some c3 =>
          match getInt c1 with
          | .error e => .error e
          | .ok n =>
            match getInt c3 with
            | .error e => .error e
            | .ok m => .ok (n, m)
        | _, _ => .error (.internal "unreachable")
      else .error (.internal "AssertionError: len(children) in (3, 5)")
    else .error (.internal "AssertionError")

/-- Models `value.startswith("_")`: the first character is an
underscore. -/
def startsUnderscore (s : String) : Bool :=
  match s.data with
  | c :: _ => c = '_'
  | [] => false

/-- The resolution step of the lowercase-NAME branch
(src/awpa/patcomp.py:159-164).  The local variable `type` of the source
is modelled by `Option (Option Nat)`: the outer `none` is the state in
which the local was never assigned (reached exactly when the name starts
with an underscore), the inner option is the resolved symbol or the
deliberate absent kind for `any`. -/
def resolveLower (g : PyGram) (value : String) : Except Err (Option (Option Nat)) :=
  if value = "any" then .ok (some none)
  else if !startsUnderscore value then
    match g.symbols value with
    | some s => .ok (some (some s))
    | none => .error (.pse ("Invalid symbol: " ++ value))
  else .ok none

/-- `children[::2]` of the source language: the elements at even
positions. -/
def evens : List PTree → List PTree
  | [] => []
  | [a] => [a]
  | a :: _ :: rest => a :: evens rest

theorem sizeOf_pos_string (s : String) : 0 < sizeOf s := by
  cases s with
  | mk data => simp

theorem sizeOf_childrenOf_lt (t : PTree) : sizeOf t.childrenOf < sizeOf t := by
  cases t with
  | leaf ty v =>
    have hv := sizeOf_pos_string v
    simp [PTree.childrenOf]
    omega
  | node ty cs =>
    simp only [PTree.childrenOf, PTree.node.sizeOf_spec]
    omega

theorem sizeOf_drop_le (l : List PTree) (n : Nat) : sizeOf (l.drop n) ≤ sizeOf l := by
  induction l generalizing n with
  | nil => simp [List.drop_nil]
  | cons a t ih =>
    cases n with
    | zero => simp
    | succ m =>
      have h := ih m
      simp only [List.drop_succ_cons]
      simp only [List.cons.sizeOf_spec]
      omega

theorem sizeOf_dropLast_le (l : List PTree) : sizeOf l.dropLast ≤ sizeOf l := by
  induction l with
  | nil => simp
  | cons a t ih =>
    cases t with
    | nil => simp [List.dropLast]
    | cons b t2 =>
      simp only [List.dropLast, List.cons.sizeOf_spec] at *
      omega

theorem sizeOf_evens_le : ∀ l : List PTree, sizeOf (evens l) ≤ sizeOf l
  | [] => by simp [evens]
  | [_] => by simp [evens]
  | a :: b :: rest => by
    have ih := sizeOf_evens_le rest
    simp only [evens, List.cons.sizeOf_spec]
    omega

theorem nameRest_sizeOf (cs : List PTree) : sizeOf (nameRest cs) ≤ sizeOf cs := by
  unfold nameRest
  repeat' split
  all_goals first
    | exact Nat.le_refl _
    | (simp only [List.cons.sizeOf_spec]; omega)

theorem splitRepeat_sizeOf (ns : List PTree) : sizeOf (splitRepeat ns).2 ≤ sizeOf ns := by
  unfold splitRepeat
  repeat' split
  all_goals first
    | exact sizeOf_dropLast_le ns
    | exact Nat.le_refl _

/-- Modelled from the spec: a concrete target grammar used as a witness
instantiation — its NAME/STRING/NUMBER token kinds, a small
operator/punctuation table, a small symbol table, and a literal evaluator
that strips the surrounding quotes of the sample literals. -/
def sampleGram : PyGram where
  tokNAME := 1
  tokSTRING := 3
  tokNUMBER := 2
  opmap := fun s => if s = "+" then some 14 else if s = "*" then some 16 else none
  symbols := fun s =>
    if s = "expr" then some 300 else if s = "power" then some 301 else none
  evalString := fun s =>
    if s = "'x'" then "x"
    else if s = "'+'" then "+"
    else if s = "'~'" then "~"
    else if s = "''" then ""
    else s

mutual

/-- Embeds `PatternCompiler.compile_node` (src/awpa/patcomp.py:68-139):
one unwrap of a `Matcher` node followed by the dispatch on the node's
type. -/
def compileNode (g : PyGram) (t : PTree) : Except Err MPattern :=
  if t.typeOf = Syms.Matcher then
    match h : t.childrenOf with
    | [] => .error (.internal "IndexError: node.children[0]")
    | c :: _ => compileDispatch g c
  else compileDispatch g t
termination_by 5 * sizeOf t + 3
decreasing_by
  · have h1 := sizeOf_childrenOf_lt t
    rw [h] at h1
    simp only [List.cons.sizeOf_spec] at h1
    omega
  · omega

/-- The dispatch of `compile_node` after the `Matcher` unwrap
(src/awpa/patcomp.py:80-139).  A node that matches none of the four
symbol tags fails the `assert node.type == self.syms.Unit`. -/
def compileDispatch (g : PyGram) (t : PTree) : Except Err MPattern :=
  if t.typeOf = Syms.Alternatives then
    match compileList g (evens t.childrenOf) with
    | .error e => .error e
    | .ok alts =>
      match alts with
      | [a] => .ok a
      | _ => .ok (MPattern.optimize (.wildP (alts.map (fun a => [a])) 1 1 none))
  else if t.typeOf = Syms.Alternative then
    match compileList g t.childrenOf with
    | .error e => .error e
    | .ok units =>
      match units with
      | [u] => .ok u
      | _ => .ok (MPattern.optimize (.wildP [units] 1 1 none))
  else if t.typeOf = Syms.NegatedUnit then
    match compileBasic g (t.childrenOf.drop 1) none with
    | .error e => .error e
    | .ok p => .ok (MPattern.optimize (.negP p none))
  else if t.typeOf = Syms.Unit then
    match nameTag t.childrenOf with
    | .error e => .error e
    | .ok name? =>
      match compileBasic g (splitRepeat (nameRest t.childrenOf)).2
          (splitRepeat (nameRest t.childrenOf)).1 with
      | .error e => .error e
      | .ok pat0 =>
        match (splitRepeat (nameRest t.childrenOf)).1 with
        | none =>
          let pat1 := match name? with
            | some nm => pat0.setName nm
            | none => pat0
          .ok pat1.optimize
        | some rep =>
          match repeatBounds rep with
          | .error e => .error e
          | .ok (mn, mx) =>
            let pat1 := if mn = 1 ∧ mx = 1 then pat0
              else MPattern.wildP [[pat0.optimize]] mn mx none
            let pat2 := match name? with
              | some nm => pat1.setName nm
              | none => pat1
            .ok pat2.optimize
  else .error (.internal "AssertionError: node.type == self.syms.Unit")
termination_by 5 * sizeOf t + 2
decreasing_by
  · have h1 := sizeOf_evens_le t.childrenOf
    have h2 := sizeOf_childrenOf_lt t
    omega
  · have h2 := sizeOf_childrenOf_lt t
    omega
  · have h1 := sizeOf_drop_le t.childrenOf 1
    have h2 := sizeOf_childrenOf_lt t
    omega
  · have h1 := splitRepeat_sizeOf (nameRest t.childrenOf)
    have h2 := nameRest_sizeOf t.childrenOf
    have h3 := sizeOf_childrenOf_lt t
    omega

/-- Embeds `PatternCompiler.compile_basic` (src/awpa/patcomp.py:141-176).
When the first node is an interior node, every branch that survives the
type tests reads `.value`, an AttributeError. -/
def compileBasic (g : PyGram) (nodes : List PTree) (repeat? : Option PTree) :
    Except Err MPattern :=
  match nodes with
  | [] => .error (.internal "AssertionError: len(nodes) >= 1")
  | .node _ _ :: _ => .error (.internal "AttributeError: Node.value")
  | .leaf lty value :: rest =>
    if lty = PatTok.STRING then
      match typeOfLiteral g (g.evalString value) with
      | .error e => .error e
      | .ok ty => .ok (.leafP ty (some (g.evalString value)) none)
    else if lty = PatTok.NAME then
      if pyIsUpper value then
        match tokenMap g value with
        | none => .error (.pse ("Invalid token: " ++ value))
        | some ty =>
          match rest with
          | _ :: _ => .error (.pse "Can't have details for token")
          | [] => .ok (.leafP ty none none)
      else
        match resolveLower g value with
        | .error e => .error e
        | .ok ty? =>
          match rest with
          | [] =>
            match ty? with
            | some ty => .ok (.nodeP ty none none)
            | none => .error (.internal "UnboundLocalError: type")
          | d :: _ =>
            match compileDetails g d with
            | .error e => .error e
            | .ok c =>
              match ty? with
              | some ty => .ok (.nodeP ty (some [c]) none)
              | none => .error (.internal "UnboundLocalError: type")
    else if value = "(" then
      match rest with
      | inner :: _ => compileNode g inner
      | [] => .error (.internal "IndexError: nodes[1]")
    else if value = "[" then
      match repeat? with
      | some _ => .error (.internal "AssertionError: repeat is None")
      | none =>
        match rest with
        | inner :: _ =>
          match compileNode g inner with
          | .error e => .error e
          | .ok sub => .ok (.wildP [[sub]] 0 1 none)
        | [] => .error (.internal "IndexError: nodes[1]")
    else .error (.internal "AssertionError: unreachable basic pattern")
termination_by 5 * sizeOf nodes
decreasing_by
  · simp only [List.cons.sizeOf_spec]
    omega
  · simp only [List.cons.sizeOf_spec]
    omega
  · simp only [List.cons.sizeOf_spec]
    omega

/-- The compilation of the bracketed sub-pattern of a `Details` clause
(src/awpa/patcomp.py:166): `nodes[1].children[1]` is its single inner
`Alternatives`; fewer than two children is an IndexError. -/
def compileDetails (g : PyGram) (d : PTree) : Except Err MPattern :=
  match d with
  | .node _ (_ :: inner :: _) => compileNode g inner
  | _ => .error (.internal "IndexError: children[1]")
termination_by 5 * sizeOf d + 1
decreasing_by
  · simp only [PTree.node.sizeOf_spec, List.cons.sizeOf_spec]
    omega

/-- The left-to-right compilation of a list of syntax-tree nodes, with
the first failure propagated (the source's list comprehensions over
`self.compile_node` at src/awpa/patcomp.py:82 and 89). -/
def compileList (g : PyGram) (l : List PTree) : Except Err (List MPattern) :=
  match l with
  | [] => .ok []
  | t :: ts =>
    match compileNode g t with
    | .error e => .error e
    | .ok p =>
      match compileList g ts with
      | .error e => .error e
      | .ok ps => .ok (p :: ps)
termination_by 5 * sizeOf l + 4
decreasing_by
  · simp only [List.cons.sizeOf_spec]
    omega
  · simp only [List.cons.sizeOf_spec]
    omega

end

/-! Unfolding equations for the mutually recursive compiler, used by the
claim proofs below. -/

theorem compileNode_node (g : PyGram) (ty : Nat) (cs : List PTree)
    (h : ¬ ty = Syms.Matcher) :
    compileNode g (.node ty cs) = compileDispatch g (.node ty cs) := by
  rw [compileNode,
    if_neg (show ¬ (PTree.node ty cs).typeOf = Syms.Matcher by
      simpa [PTree.typeOf] using h)]

theorem compileDispatch_alternatives (g : PyGram) (cs : List PTree) :
    compileDispatch g (.node Syms.Alternatives cs) =
      match compileList g (evens cs) with
      | .error e => .error e
      | .ok alts =>
        match alts with
        | [a] => .ok a
        | _ => .ok (.wildP (alts.map fun a => [a]) 1 1 none) := by
  rw [compileDispatch]
  norm_num [PTree.typeOf, PTree.childrenOf, Syms.Alternatives, Syms.Matcher,
    MPattern.optimize]

theorem compileDispatch_alternative (g : PyGram) (cs : List PTree) :
    compileDispatch g (.node Syms.Alternative cs) =
      match compileList g cs with
      | .error e => .error e
      | .ok units =>
        match units with
        | [u] => .ok u
        | _ => .ok (.wildP [units] 1 1 none) := by
  rw [compileDispatch]
  norm_num [PTree.typeOf, PTree.childrenOf, Syms.Alternatives, Syms.Alternative,
    Syms.Matcher, MPattern.optimize]

theorem compileDispatch_negated (g : PyGram) (cs : List PTree) :
    compileDispatch g (.node Syms.NegatedUnit cs) =
      match compileBasic g (cs.drop 1) none with
      | .error e => .error e
      | .ok p => .ok (.negP p none) := by
  rw [compileDispatch]
  norm_num [PTree.typeOf, PTree.childrenOf, Syms.Alternatives, Syms.Alternative,
    Syms.NegatedUnit, Syms.Matcher, MPattern.optimize]

theorem compileDispatch_unit (g : PyGram) (cs : List PTree) :
    compileDispatch g (.node Syms.Unit cs) =
      match nameTag cs with
      | .error e => .error e
      | .ok name? =>
        match compileBasic g (splitRepeat (nameRest cs)).2
            (splitRepeat (nameRest cs)).1 with
        | .error e => .error e
        | .ok pat0 =>
          match (splitRepeat (nameRest cs)).1 with
          | none =>
            .ok (match name? with
                 | some nm => pat0.setName nm
                 | none => pat0)
          | some rep =>
            match repeatBounds rep with
            | .error e => .error e
            | .ok (mn, mx) =>
              .ok (match name? with
                   | some nm =>
                     (if mn = 1 ∧ mx = 1 then pat0
                      else .wildP [[pat0]] mn mx none).setName nm
                   | none =>
                     if mn = 1 ∧ mx = 1 then pat0
                     else .wildP [[pat0]] mn mx none) := by
  rw [compileDispatch]
  norm_num [PTree.typeOf, PTree.childrenOf, Syms.Alternatives, Syms.Alternative,
    Syms.NegatedUnit, Syms.Unit, Syms.Matcher, MPattern.optimize]

theorem compileList_singleton (g : PyGram) (t : PTree) :
    compileList g [t] =
      match compileNode g t with
      | .error e => .error e
      | .ok p => .ok [p] := by
  rw [compileList]
  cases hc : compileNode g t with
  | error e => rfl
  | ok p => rw [compileList]

theorem alternatives_singleton (g : PyGram) (cs : List PTree) (c : PTree)
    (h : evens cs = [c]) :
    compileNode g (.node Syms.Alternatives cs) = compileNode g c := by
  rw [compileNode_node _ _ _ (by norm_num [Syms.Alternatives, Syms.Matcher]),
    compileDispatch_alternatives, h, compileList_singleton]
  cases hc : compileNode g c with
  | error e => rfl
  | ok p => rfl

theorem alternative_singleton (g : PyGram) (u : PTree) :
    compileNode g (.node Syms.Alternative [u]) = compileNode g u := by
  rw [compileNode_node _ _ _ (by norm_num [Syms.Alternative, Syms.Matcher]),
    compileDispatch_alternative, compileList_singleton]
  cases hc : compileNode g u with
  | error e => rfl
  | ok p => rfl

theorem compileBasic_string (g : PyGram) (raw : String) (rest : List PTree)
    (r : Option PTree) :
    compileBasic g (.leaf PatTok.STRING raw :: rest) r =
      match typeOfLiteral g (g.evalString raw) with
      | .error e => .error e
      | .ok ty => .ok (.leafP ty (some (g.evalString raw)) none) := by
  cases rest <;> cases r <;>
    (rw [compileBasic]; simp [PatTok.STRING])

theorem compileBasic_name (g : PyGram) (v : String) (rest : List PTree)
    (r : Option PTree) :
    compileBasic g (.leaf PatTok.NAME v :: rest) r =
      (if pyIsUpper v then
        match tokenMap g v with
        | none => .error (.pse ("Invalid token: " ++ v))
        | some ty =>
          match rest with
          | _ :: _ => .error (.pse "Can't have details for token")
          | [] => .ok (.leafP ty none none)
      else
        match resolveLower g v with
        | .error e => .error e
        | .ok ty? =>
          match rest with
          | [] =>
            match ty? with
            | some ty => .ok (.nodeP ty none none)
            | none => .error (.internal "UnboundLocalError: type")
          | d :: _ =>
            match compileDetails g d with
            | .error e => .error e
            | .ok c =>
              match ty? with
              | some ty => .ok (.nodeP ty (some [c]) none)
              | none => .error (.internal "UnboundLocalError: type")) := by
  cases rest <;> cases r <;>
    (rw [compileBasic]; simp [PatTok.NAME, PatTok.STRING])

theorem compileBasic_bracket (g : PyGram) (inner : PTree) (rest : List PTree) :
    compileBasic g (.leaf PatTok.LSQB "[" :: inner :: rest) none =
      match compileNode g inner with
      | .error e => .error e
      | .ok sub => .ok (.wildP [[sub]] 0 1 none) := by
  rw [compileBasic]
  simp [PatTok.LSQB, PatTok.STRING, PatTok.NAME]

theorem splitRepeat_concat (ns : List PTree) (rep : PTree) (h0 : ns ≠ [])
    (h : rep.typeOf = Syms.Repeater) :
    splitRepeat (ns ++ [rep]) = (some rep, ns) := by
  have hlen : 2 ≤ (ns ++ [rep]).length := by
    cases ns with
    | nil => exact absurd rfl h0
    | cons a t => simp [List.length_append]
  unfold splitRepeat
  rw [if_pos hlen, List.getLast?_concat]
  simp [h, List.dropLast_concat]

theorem compileBasic_repeat_irrelevant (g : PyGram) (b0 : PTree) (bs : List PTree)
    (r : Option PTree)
    (h : b0.typeOf = PatTok.STRING ∨ b0.typeOf = PatTok.NAME
         ∨ b0.valueOf ≠ some "[") :
    compileBasic g (b0 :: bs) r = compileBasic g (b0 :: bs) none := by
  cases b0 with
  | node nty ncs => cases r with
    | none => rfl
    | some rp => rw [compileBasic, compileBasic]
  | leaf lty v =>
    simp only [PTree.typeOf, PTree.valueOf] at h
    cases r with
    | none => rfl
    | some rp =>
      cases bs <;>
        (rw [compileBasic, compileBasic]
         by_cases hs : lty = PatTok.STRING
         · simp [hs]
         · by_cases hn : lty = PatTok.NAME
           · simp [hs, hn]
           · by_cases hp : v = "("
             · simp [hs, hn, hp]
             · have hv : ¬ v = "[" := by
                 rcases h with h | h | h
                 · exact absurd h hs
                 · exact absurd h hn
                 · exact fun hv => h (by rw [hv])
               simp [hs, hn, hp, hv])

/-- Specialisation of `compileBasic_name` to a lowercase name that
resolves, with a Details clause present: the result is the propagated
outcome of compiling the Details sub-pattern
(src/awpa/patcomp.py:158-169). -/
theorem compileBasic_name_details (g : PyGram) (v : String) (d : PTree)
    (rest : List PTree) (r : Option PTree) (ty : Option Nat)
    (hu : pyIsUpper v = false)
    (hr : resolveLower g v = .ok (some ty)) :
    compileBasic g (.leaf PatTok.NAME v :: d :: rest) r =
      match compileDetails g d with
      | .error e => .error e
      | .ok c => .ok (.nodeP ty (some [c]) none) := by
  rw [compileBasic_name, if_neg (by simp [hu]), hr]

/-- Observation used by the error-taxonomy claim: the computation ended in
the user-facing `PatternSyntaxError` (as opposed to success or an internal
defect). -/
def isSynErr : Except Err MPattern → Bool
  | .error (.pse _) => true
  | _ => false

/-! The claim theorems. -/

/-- C1: the claim says a lowercase NAME leaf that starts with `_` (and is
not `any`) compiles without error to a node matcher whose symbol is left
absent.  On that path the source never assigns its local variable `type`,
so constructing the node matcher raises UnboundLocalError
(src/awpa/patcomp.py:159-169): an internal crash, not the documented
success. -/
theorem C1_reserved_name_unbound (g : PyGram) (v : String)
    (h1 : pyIsUpper v = false) (h2 : v ≠ "any")
    (h3 : startsUnderscore v = true) :
    compileBasic g [.leaf PatTok.NAME v] none =
      .error (.internal "UnboundLocalError: type") := by
  rw [compileBasic_name]
  simp [h1, resolveLower, h2, h3]

/-- Witness for C1 at the concrete reserved name `_x`. -/
theorem C1_reserved_name_unbound_witness :
    pyIsUpper "_x" = false ∧ "_x" ≠ "any" ∧ startsUnderscore "_x" = true
    ∧ compileBasic sampleGram [.leaf PatTok.NAME "_x"] none =
        .error (.internal "UnboundLocalError: type") :=
  ⟨by decide, by decide, by decide,
   C1_reserved_name_unbound sampleGram "_x" (by decide) (by decide) (by decide)⟩

/-- C2: the claim says compile_basic on a NAME leaf raises
PatternSyntaxError exactly when (a) the name is uppercase and not in the
token table, (b) the name is a recognized uppercase token name but a
Details clause is present, or (c) the name is lowercase, not `any`, does
not start with `_`, and does not resolve against the grammar's symbol
table.  The exact characterisation needs a fourth case the claim omits:
the name is lowercase and passes resolution, a Details clause is present,
and compiling the Details sub-pattern itself raises PatternSyntaxError,
which compile_basic propagates (src/awpa/patcomp.py:150-169). -/
theorem C2_name_error_cases (g : PyGram) (v : String) (rest : List PTree)
    (r : Option PTree) :
    isSynErr (compileBasic g (.leaf PatTok.NAME v :: rest) r) = true ↔
      ((pyIsUpper v = true ∧ tokenMap g v = none)
       ∨ (pyIsUpper v = true ∧ tokenMap g v ≠ none ∧ rest ≠ [])
       ∨ (pyIsUpper v = false ∧ v ≠ "any" ∧ startsUnderscore v = false
          ∧ g.symbols v = none)
       ∨ (pyIsUpper v = false
          ∧ ¬(v ≠ "any" ∧ startsUnderscore v = false ∧ g.symbols v = none)
          ∧ ∃ d ds, rest = d :: ds ∧ isSynErr (compileDetails g d) = true)) := by
  rw [compileBasic_name]
  cases hu : pyIsUpper v with
  | true =>
    cases ht : tokenMap g v with
    | none => simp [isSynErr, ht]
    | some ty =>
      cases rest with
      | nil => simp [isSynErr, ht]
      | cons d ds => simp [isSynErr, ht]
  | false =>
    by_cases ha : v = "any"
    · rw [show resolveLower g v = .ok (some none) from by simp [resolveLower, ha]]
      cases rest with
      | nil => simp [isSynErr, ha]
      | cons d ds =>
        cases hd : compileDetails g d with
        | error e => cases e with
          | pse m => simp [isSynErr, ha, hd]
          | internal m => simp [isSynErr, ha, hd]
        | ok c => simp [isSynErr, ha, hd]
    · by_cases hus : startsUnderscore v = true
      · rw [show resolveLower g v = .ok none from by simp [resolveLower, ha, hus]]
        cases rest with
        | nil => simp [isSynErr, ha, hus]
        | cons d ds =>
          cases hd : compileDetails g d with
          | error e => cases e with
            | pse m => simp [isSynErr, ha, hus, hd]
            | internal m => simp [isSynErr, ha, hus, hd]
          | ok c => simp [isSynErr, ha, hus, hd]
      · cases hsym : g.symbols v with
        | none =>
          rw [show resolveLower g v = .error (.pse ("Invalid symbol: " ++ v)) from by
            simp [resolveLower, ha, hus, hsym]]
          simp [isSynErr, ha, hus, hsym]
        | some sId =>
          rw [show resolveLower g v = .ok (some (some sId)) from by
            simp [resolveLower, ha, hus, hsym]]
          cases rest with
          | nil => simp [isSynErr, ha, hus, hsym]
          | cons d ds =>
            cases hd : compileDetails g d with
            | error e => cases e with
              | pse m => simp [isSynErr, ha, hus, hsym, hd]
              | internal m => simp [isSynErr, ha, hus, hsym, hd]
            | ok c => simp [isSynErr, ha, hus, hsym, hd]

/-- A Details clause `<FOO>` whose sub-pattern is the unknown uppercase
token name FOO, so compiling the sub-pattern raises PatternSyntaxError. -/
def detailsFoo : PTree :=
  .node Syms.Details
    [.leaf PatTok.LESS "<",
     .node Syms.Alternatives
       [.node Syms.Alternative [.node Syms.Unit [.leaf PatTok.NAME "FOO"]]],
     .leaf PatTok.GREATER ">"]

/-- Counterexample for C2: the NAME basic pattern `expr<FOO>` (a lowercase
name that resolves, carrying a Details clause whose sub-pattern is
invalid) raises PatternSyntaxError yet falls under none of the claim's
three cases. -/
theorem C2_name_error_cases_counterexample :
    isSynErr (compileBasic sampleGram
        [.leaf PatTok.NAME "expr", detailsFoo] none) = true
    ∧ ¬((pyIsUpper "expr" = true ∧ tokenMap sampleGram "expr" = none)
        ∨ (pyIsUpper "expr" = true ∧ tokenMap sampleGram "expr" ≠ none
           ∧ ([detailsFoo] : List PTree) ≠ [])
        ∨ (pyIsUpper "expr" = false ∧ "expr" ≠ "any"
           ∧ startsUnderscore "expr" = false
           ∧ sampleGram.symbols "expr" = none)) := by
  constructor
  · have hfoo : compileDetails sampleGram detailsFoo =
        .error (.pse ("Invalid token: " ++ "FOO")) := by
      rw [show detailsFoo = PTree.node Syms.Details
          [PTree.leaf PatTok.LESS "<",
           PTree.node Syms.Alternatives
             [PTree.node Syms.Alternative
               [PTree.node Syms.Unit [PTree.leaf PatTok.NAME "FOO"]]],
           PTree.leaf PatTok.GREATER ">"] from rfl]
      rw [compileDetails]
      rw [alternatives_singleton sampleGram
          [PTree.node Syms.Alternative
            [PTree.node Syms.Unit [PTree.leaf PatTok.NAME "FOO"]]]
          (PTree.node Syms.Alternative
            [PTree.node Syms.Unit [PTree.leaf PatTok.NAME "FOO"]]) rfl,
        alternative_singleton,
        compileNode_node _ _ _ (by norm_num [Syms.Unit, Syms.Matcher]),
        compileDispatch_unit]
      rw [show nameTag [PTree.leaf PatTok.NAME "FOO"] = .ok none from rfl,
        show nameRest [PTree.leaf PatTok.NAME "FOO"] =
          [PTree.leaf PatTok.NAME "FOO"] from rfl,
        show (splitRepeat [PTree.leaf PatTok.NAME "FOO"]).2 =
          [PTree.leaf PatTok.NAME "FOO"] from rfl,
        show (splitRepeat [PTree.leaf PatTok.NAME "FOO"]).1 =
          (none : Option PTree) from rfl,
        compileBasic_name]
      simp [pyIsUpper, tokenMap]
    rw [compileBasic_name_details sampleGram "expr" detailsFoo [] none (some 300)
      (by decide) rfl]
    rw [hfoo]
    rfl
  · intro h
    rcases h with ⟨h1, _⟩ | ⟨h1, _⟩ | ⟨_, _, _, h4⟩
    · exact absurd h1 (by decide)
    · exact absurd h1 (by decide)
    · exact absurd h4 (by decide)

/-- A Repeater syntax node spelling `{1,1}`. -/
def rep11 : PTree :=
  .node Syms.Repeater
    [.leaf PatTok.LBRACE "\x7b", .leaf PatTok.NUMBER "1", .leaf PatTok.COMMA ",",
     .leaf PatTok.NUMBER "1", .leaf PatTok.RBRACE "\x7d"]

/-- A Repeater syntax node spelling `{5,2}` (lower bound above upper). -/
def rep52 : PTree :=
  .node Syms.Repeater
    [.leaf PatTok.LBRACE "\x7b", .leaf PatTok.NUMBER "5", .leaf PatTok.COMMA ",",
     .leaf PatTok.NUMBER "2", .leaf PatTok.RBRACE "\x7d"]

/-- C3: for a Unit carrying a Repeater suffix, the computed bounds are:
`*` gives zero to the infinite sentinel, `+` gives one to the sentinel,
`{n}` gives `n` to `n`, and `{n,m}` gives `n` to `m` even when `n > m`
(faithfully reproduced, neither rejected nor corrected); and whenever the
bounds differ from one-to-one the compiled basic pattern is optimized and
wrapped as a wildcard matcher with that single alternative and those
bounds (src/awpa/patcomp.py:115-135). -/
theorem C3_repeat_bounds (g : PyGram) (b0 : PTree) (bs : List PTree)
    (rep : PTree)
    (hrep : rep.typeOf = Syms.Repeater)
    (hname : nameTag ((b0 :: bs) ++ [rep]) = .ok none)
    (hrest : nameRest ((b0 :: bs) ++ [rep]) = (b0 :: bs) ++ [rep]) :
    (compileNode g (.node Syms.Unit ((b0 :: bs) ++ [rep])) =
      match compileBasic g (b0 :: bs) (some rep) with
      | .error e => .error e
      | .ok pat0 =>
        match repeatBounds rep with
        | .error e => .error e
        | .ok (mn, mx) =>
          .ok (if mn = 1 ∧ mx = 1 then pat0
               else MPattern.wildP [[pat0.optimize]] mn mx none))
    ∧ (∀ s, repeatBounds (.node Syms.Repeater [.leaf PatTok.STAR s]) =
        .ok (0, HUGE))
    ∧ (∀ s, repeatBounds (.node Syms.Repeater [.leaf PatTok.PLUS s]) =
        .ok (1, HUGE))
    ∧ (∀ nv n, pyInt nv = some n →
        repeatBounds (.node Syms.Repeater
          [.leaf PatTok.LBRACE "\x7b", .leaf PatTok.NUMBER nv,
           .leaf PatTok.RBRACE "\x7d"]) = .ok (n, n))
    ∧ (∀ nv mv n m, pyInt nv = some n → pyInt mv = some m →
        repeatBounds (.node Syms.Repeater
          [.leaf PatTok.LBRACE "\x7b", .leaf PatTok.NUMBER nv,
           .leaf PatTok.COMMA ",", .leaf PatTok.NUMBER mv,
           .leaf PatTok.RBRACE "\x7d"]) = .ok (n, m)) := by
  refine ⟨?_, fun s => rfl, fun s => rfl, ?_, ?_⟩
  · have hsp := splitRepeat_concat (b0 :: bs) rep (List.cons_ne_nil _ _) hrep
    rw [compileNode_node _ _ _ (by norm_num [Syms.Unit, Syms.Matcher]),
      compileDispatch_unit, hname, hrest]
    rw [show (splitRepeat ((b0 :: bs) ++ [rep])).2 = b0 :: bs from by rw [hsp]]
    rw [show (splitRepeat ((b0 :: bs) ++ [rep])).1 = some rep from by rw [hsp]]
    simp only []
    cases hc : compileBasic g (b0 :: bs) (some rep) with
    | error e => rfl
    | ok pat0 =>
      cases hb : repeatBounds rep with
      | error e => rfl
      | ok mnmx => cases mnmx with | mk mn mx => rfl
  · intro nv n hn
    simp [repeatBounds, getInt, PTree.childrenOf, PTree.typeOf, PTree.valueOf,
      hn, PatTok.LBRACE, PatTok.RBRACE, PatTok.NUMBER, PatTok.STAR, PatTok.PLUS,
      List.getLast?]
  · intro nv mv n m hn hm
    simp [repeatBounds, getInt, PTree.childrenOf, PTree.typeOf, PTree.valueOf,
      hn, hm, PatTok.LBRACE, PatTok.RBRACE, PatTok.NUMBER, PatTok.STAR,
      PatTok.PLUS, List.getLast?]

/-- Witness for C3 at the unit `NAME{5,2}`: the inverted bounds pass
through unchanged into the wildcard wrapper. -/
theorem C3_repeat_bounds_witness :
    compileNode sampleGram
      (.node Syms.Unit ([PTree.leaf PatTok.NAME "NAME"] ++ [rep52])) =
      .ok (.wildP [[.leafP (some 1) none none]] 5 2 none) := by
  have h := (C3_repeat_bounds sampleGram (PTree.leaf PatTok.NAME "NAME") []
    rep52 rfl rfl rfl).1
  rw [h, compileBasic_name]
  simp [pyIsUpper, tokenMap, sampleGram, MPattern.optimize,
    show repeatBounds rep52 = Except.ok (5, 2) from rfl]

/-- C4: for a Unit with a `name =` prefix, the capture name is attached to
the outermost constructed matcher node, after any repeat-wrapping; in
particular compiling `y=NUMBER*` yields the wildcard repeat wrapper
carrying the name `y`, not the leaf matcher inside it
(src/awpa/patcomp.py:102-139). -/
theorem C4_naming_binds_outermost (g : PyGram) (nm : String) (r0 : PTree)
    (rest : List PTree) :
    (compileNode g (.node Syms.Unit
        (.leaf PatTok.NAME nm :: .leaf PatTok.EQUAL "=" :: r0 :: rest)) =
      match compileBasic g (splitRepeat (r0 :: rest)).2
          (splitRepeat (r0 :: rest)).1 with
      | .error e => .error e
      | .ok pat0 =>
        match (splitRepeat (r0 :: rest)).1 with
        | none => .ok (pat0.setName nm)
        | some rep =>
          match repeatBounds rep with
          | .error e => .error e
          | .ok (mn, mx) =>
            .ok ((if mn = 1 ∧ mx = 1 then pat0
                  else MPattern.wildP [[pat0.optimize]] mn mx none).setName nm))
    ∧ compileNode sampleGram (.node Syms.Unit
        [.leaf PatTok.NAME "y", .leaf PatTok.EQUAL "=",
         .leaf PatTok.NAME "NUMBER",
         .node Syms.Repeater [.leaf PatTok.STAR "*"]]) =
      .ok (.wildP [[.leafP (some sampleGram.tokNUMBER) none none]]
        0 HUGE (some "y")) := by
  constructor
  · rw [compileNode_node _ _ _ (by norm_num [Syms.Unit, Syms.Matcher]),
      compileDispatch_unit]
    rw [show nameTag
        (PTree.leaf PatTok.NAME nm :: PTree.leaf PatTok.EQUAL "=" :: r0 :: rest) =
        .ok (some nm) from by simp [nameTag, PTree.typeOf, PTree.valueOf]]
    rw [show nameRest
        (PTree.leaf PatTok.NAME nm :: PTree.leaf PatTok.EQUAL "=" :: r0 :: rest) =
        r0 :: rest from by simp [nameRest, PTree.typeOf]]
    cases hc : compileBasic g (splitRepeat (r0 :: rest)).2
        (splitRepeat (r0 :: rest)).1 with
    | error e => rfl
    | ok pat0 =>
      cases hs : (splitRepeat (r0 :: rest)).1 with
      | none => rfl
      | some rep =>
        cases hb : repeatBounds rep with
        | error e => rfl
        | ok mnmx => cases mnmx with | mk mn mx => rfl
  · rw [compileNode_node _ _ _ (by norm_num [Syms.Unit, Syms.Matcher]),
      compileDispatch_unit]
    rw [show nameTag
        [PTree.leaf PatTok.NAME "y", PTree.leaf PatTok.EQUAL "=",
         PTree.leaf PatTok.NAME "NUMBER",
         PTree.node Syms.Repeater [PTree.leaf PatTok.STAR "*"]] =
        .ok (some "y") from rfl]
    rw [show nameRest
        [PTree.leaf PatTok.NAME "y", PTree.leaf PatTok.EQUAL "=",
         PTree.leaf PatTok.NAME "NUMBER",
         PTree.node Syms.Repeater [PTree.leaf PatTok.STAR "*"]] =
        [PTree.leaf PatTok.NAME "NUMBER",
         PTree.node Syms.Repeater [PTree.leaf PatTok.STAR "*"]] from rfl]
    rw [show (splitRepeat
        [PTree.leaf PatTok.NAME "NUMBER",
         PTree.node Syms.Repeater [PTree.leaf PatTok.STAR "*"]]).2 =
        [PTree.leaf PatTok.NAME "NUMBER"] from rfl]
    rw [show (splitRepeat
        [PTree.leaf PatTok.NAME "NUMBER",
         PTree.node Syms.Repeater [PTree.leaf PatTok.STAR "*"]]).1 =
        some (PTree.node Syms.Repeater [PTree.leaf PatTok.STAR "*"]) from rfl]
    rw [compileBasic_name]
    simp [pyIsUpper, tokenMap, repeatBounds, PTree.childrenOf, PTree.typeOf,
      PatTok.STAR, HUGE, MPattern.setName]

/-- C6: a Repeater of `{1,1}` produces the same matcher node as the same
unit with the Repeater omitted: with bounds one-to-one no wildcard repeat
wrapper is added around the compiled basic pattern
(src/awpa/patcomp.py:133-139).  The hypotheses state that the unit is
grammar-shaped: the added Repeater does not disturb the name prefix, the
bare unit carries no Repeater of its own, and the basic pattern is not an
optional group (the grammar excludes a repeat suffix there). -/
theorem C6_repeat_identity (g : PyGram) (cs : List PTree) (b0 : PTree)
    (bs : List PTree)
    (hnt : nameTag (cs ++ [rep11]) = nameTag cs)
    (hnr : nameRest (cs ++ [rep11]) = nameRest cs ++ [rep11])
    (hne : nameRest cs = b0 :: bs)
    (hsr : splitRepeat (nameRest cs) = (none, nameRest cs))
    (hb : b0.typeOf = PatTok.STRING ∨ b0.typeOf = PatTok.NAME
          ∨ b0.valueOf ≠ some "[") :
    compileNode g (.node Syms.Unit (cs ++ [rep11])) =
      compileNode g (.node Syms.Unit cs) := by
  rw [compileNode_node _ _ _ (by norm_num [Syms.Unit, Syms.Matcher]),
    compileNode_node _ _ _ (by norm_num [Syms.Unit, Syms.Matcher]),
    compileDispatch_unit, compileDispatch_unit, hnt, hnr]
  have hsp := splitRepeat_concat (nameRest cs) rep11
    (by rw [hne]; exact List.cons_ne_nil _ _) rfl
  rw [show (splitRepeat (nameRest cs ++ [rep11])).2 = nameRest cs from by
    rw [hsp]]
  rw [show (splitRepeat (nameRest cs ++ [rep11])).1 = some rep11 from by
    rw [hsp]]
  rw [show (splitRepeat (nameRest cs)).2 = nameRest cs from by rw [hsr]]
  rw [show (splitRepeat (nameRest cs)).1 = (none : Option PTree) from by
    rw [hsr]]
  rw [hne, compileBasic_repeat_irrelevant g b0 bs (some rep11) hb]
  simp only []
  rw [show repeatBounds rep11 = Except.ok (1, 1) from rfl]
  cases hcn : nameTag cs with
  | error e => rfl
  | ok name? =>
    cases hc : compileBasic g (b0 :: bs) none with
    | error e => rfl
    | ok pat0 =>
      cases name? with
      | none => simp
      | some nm => simp

/-- Witness for C6 at the unit `NAME{1,1}` versus `NAME`. -/
theorem C6_repeat_identity_witness :
    compileNode sampleGram
      (.node Syms.Unit ([PTree.leaf PatTok.NAME "NAME"] ++ [rep11])) =
      compileNode sampleGram (.node Syms.Unit [PTree.leaf PatTok.NAME "NAME"]) :=
  C6_repeat_identity sampleGram [PTree.leaf PatTok.NAME "NAME"]
    (PTree.leaf PatTok.NAME "NAME") [] rfl rfl rfl rfl (Or.inr (Or.inl rfl))

/-- C5: compiling an Alternatives node with exactly one alternative
returns that compiled alternative unchanged, and compiling an Alternative
node with exactly one unit returns that compiled unit unchanged; hence a
pattern of exactly one alternative of exactly one unit compiles to the
same matcher node as that unit alone, with no wildcard wrapper added
(src/awpa/patcomp.py:80-93). -/
theorem C5_single_alternative_collapse (g : PyGram) (cs : List PTree)
    (c u : PTree) (h : evens cs = [c]) :
    compileNode g (.node Syms.Alternatives cs) = compileNode g c
    ∧ compileNode g (.node Syms.Alternative [u]) = compileNode g u
    ∧ compileNode g (.node Syms.Alternatives [.node Syms.Alternative [u]]) =
        compileNode g u := by
  refine ⟨alternatives_singleton g cs c h, alternative_singleton g u, ?_⟩
  rw [alternatives_singleton g [PTree.node Syms.Alternative [u]]
    (PTree.node Syms.Alternative [u]) rfl]
  exact alternative_singleton g u

/-- Witness for C5 at a single NAME-leaf alternative. -/
theorem C5_single_alternative_collapse_witness :
    evens [PTree.leaf PatTok.NAME "NAME"] = [PTree.leaf PatTok.NAME "NAME"]
    ∧ (compileNode sampleGram
          (.node Syms.Alternatives [PTree.leaf PatTok.NAME "NAME"]) =
        compileNode sampleGram (PTree.leaf PatTok.NAME "NAME")
      ∧ compileNode sampleGram
          (.node Syms.Alternative [PTree.leaf PatTok.NAME "NAME"]) =
        compileNode sampleGram (PTree.leaf PatTok.NAME "NAME")
      ∧ compileNode sampleGram
          (.node Syms.Alternatives
            [.node Syms.Alternative [PTree.leaf PatTok.NAME "NAME"]]) =
        compileNode sampleGram (PTree.leaf PatTok.NAME "NAME")) :=
  ⟨rfl, C5_single_alternative_collapse sampleGram [PTree.leaf PatTok.NAME "NAME"]
    (PTree.leaf PatTok.NAME "NAME") (PTree.leaf PatTok.NAME "NAME") rfl⟩

/-- C7: compiling a NegatedUnit node compiles the basic pattern formed by
all children after the leading negation token and wraps the result in a
negated matcher; compiling `!NAME` yields the negated matcher whose inner
node is a leaf matcher of the NAME lexical kind
(src/awpa/patcomp.py:95-98). -/
theorem C7_negation_round_trip (g : PyGram) (cs : List PTree) :
    (compileNode g (.node Syms.NegatedUnit cs) =
      match compileBasic g (cs.drop 1) none with
      | .error e => .error e
      | .ok p => .ok (.negP p none))
    ∧ compileNode g (.node Syms.NegatedUnit
        [.leaf PatTok.EXCL "!", .leaf PatTok.NAME "NAME"]) =
      .ok (.negP (.leafP (some g.tokNAME) none none) none) := by
  constructor
  · rw [compileNode_node _ _ _ (by norm_num [Syms.NegatedUnit, Syms.Matcher])]
    exact compileDispatch_negated g cs
  · rw [compileNode_node _ _ _ (by norm_num [Syms.NegatedUnit, Syms.Matcher]),
      compileDispatch_negated]
    rw [show List.drop 1 [PTree.leaf PatTok.EXCL "!", PTree.leaf PatTok.NAME "NAME"] =
      [PTree.leaf PatTok.NAME "NAME"] from rfl, compileBasic_name]
    simp [pyIsUpper, tokenMap]

/-- C8: a basic pattern beginning with a literal `[` child, with the
repeat suffix absent, compiles the inner alternatives and wraps the
result as a wildcard matcher with a single alternative and bounds zero to
one; compiling `[NAME]` yields exactly that wrapper around the NAME leaf
matcher (src/awpa/patcomp.py:172-175). -/
theorem C8_optional_group (g : PyGram) (inner : PTree) (rest : List PTree) :
    (compileBasic g (.leaf PatTok.LSQB "[" :: inner :: rest) none =
      match compileNode g inner with
      | .error e => .error e
      | .ok sub => .ok (.wildP [[sub]] 0 1 none))
    ∧ compileNode g (.node Syms.Unit
        [.leaf PatTok.LSQB "[",
         .node Syms.Alternatives
           [.node Syms.Alternative [.node Syms.Unit [.leaf PatTok.NAME "NAME"]]],
         .leaf PatTok.RSQB "]"]) =
      .ok (.wildP [[.leafP (some g.tokNAME) none none]] 0 1 none) := by
  constructor
  · exact compileBasic_bracket g inner rest
  · have hu : compileNode g (.node Syms.Unit [PTree.leaf PatTok.NAME "NAME"]) =
        .ok (.leafP (some g.tokNAME) none none) := by
      rw [compileNode_node _ _ _ (by norm_num [Syms.Unit, Syms.Matcher]),
        compileDispatch_unit]
      rw [show nameTag [PTree.leaf PatTok.NAME "NAME"] = .ok none from rfl,
        show nameRest [PTree.leaf PatTok.NAME "NAME"] =
          [PTree.leaf PatTok.NAME "NAME"] from rfl,
        show splitRepeat [PTree.leaf PatTok.NAME "NAME"] =
          (none, [PTree.leaf PatTok.NAME "NAME"]) from rfl,
        compileBasic_name]
      simp [pyIsUpper, tokenMap]
    have halts : compileNode g (.node Syms.Alternatives
        [.node Syms.Alternative [.node Syms.Unit [PTree.leaf PatTok.NAME "NAME"]]]) =
        .ok (.leafP (some g.tokNAME) none none) := by
      rw [alternatives_singleton g
          [PTree.node Syms.Alternative
            [PTree.node Syms.Unit [PTree.leaf PatTok.NAME "NAME"]]]
          (PTree.node Syms.Alternative
            [PTree.node Syms.Unit [PTree.leaf PatTok.NAME "NAME"]]) rfl,
        alternative_singleton]
      exact hu
    rw [compileNode_node _ _ _ (by norm_num [Syms.Unit, Syms.Matcher]),
      compileDispatch_unit]
    rw [show nameTag
        [PTree.leaf PatTok.LSQB "[",
         PTree.node Syms.Alternatives
           [PTree.node Syms.Alternative
             [PTree.node Syms.Unit [PTree.leaf PatTok.NAME "NAME"]]],
         PTree.leaf PatTok.RSQB "]"] = .ok none from rfl]
    rw [show nameRest
        [PTree.leaf PatTok.LSQB "[",
         PTree.node Syms.Alternatives
           [PTree.node Syms.Alternative
             [PTree.node Syms.Unit [PTree.leaf PatTok.NAME "NAME"]]],
         PTree.leaf PatTok.RSQB "]"] =
        [PTree.leaf PatTok.LSQB "[",
         PTree.node Syms.Alternatives
           [PTree.node Syms.Alternative
             [PTree.node Syms.Unit [PTree.leaf PatTok.NAME "NAME"]]],
         PTree.leaf PatTok.RSQB "]"] from rfl]
    rw [show (splitRepeat
        [PTree.leaf PatTok.LSQB "[",
         PTree.node Syms.Alternatives
           [PTree.node Syms.Alternative
             [PTree.node Syms.Unit [PTree.leaf PatTok.NAME "NAME"]]],
         PTree.leaf PatTok.RSQB "]"]).2 =
        [PTree.leaf PatTok.LSQB "[",
         PTree.node Syms.Alternatives
           [PTree.node Syms.Alternative
             [PTree.node Syms.Unit [PTree.leaf PatTok.NAME "NAME"]]],
         PTree.leaf PatTok.RSQB "]"] from rfl]
    rw [show (splitRepeat
        [PTree.leaf PatTok.LSQB "[",
         PTree.node Syms.Alternatives
           [PTree.node Syms.Alternative
             [PTree.node Syms.Unit [PTree.leaf PatTok.NAME "NAME"]]],
         PTree.leaf PatTok.RSQB "]"]).1 = (none : Option PTree) from rfl]
    rw [compileBasic_bracket, halts]

/-- C9: the claim says every STRING basic pattern yields a leaf matcher
whose value is the unescaped literal, classified by first character.  As
stated this fails on the empty literal (see the counterexample); it holds
whenever the unescaped value is non-empty: the kind is the target NAME
kind when the first character is alphabetic and otherwise the
operator-table lookup of the value (src/awpa/patcomp.py:147-149 and
183-187). -/
theorem C9_string_literal_typing (g : PyGram) (raw : String)
    (rest : List PTree) (r : Option PTree) (c : Char) (cs : List Char)
    (hne : (g.evalString raw).data = c :: cs) :
    compileBasic g (.leaf PatTok.STRING raw :: rest) r =
      .ok (.leafP
        (if c.isAlpha then some g.tokNAME else g.opmap (g.evalString raw))
        (some (g.evalString raw)) none) := by
  rw [compileBasic_string]
  simp only [typeOfLiteral, hne]
  cases hc : c.isAlpha <;> simp [hc]

/-- Counterexample for C9: the empty string literal `''` evaluates to the
empty value, whose first-character classification is an IndexError, so no
leaf matcher is returned. -/
theorem C9_string_literal_typing_counterexample :
    compileBasic sampleGram [.leaf PatTok.STRING "''"] none =
      .error (.internal "IndexError: value[0]")
    ∧ ∀ p, compileBasic sampleGram [.leaf PatTok.STRING "''"] none ≠ .ok p := by
  have h : compileBasic sampleGram [.leaf PatTok.STRING "''"] none =
      .error (.internal "IndexError: value[0]") := by
    rw [compileBasic_string]
    simp [sampleGram, typeOfLiteral]
  exact ⟨h, fun p hp => by rw [h] at hp; cases hp⟩

/-- Witness for C9 at the literals `'x'` (alphabetic, NAME kind) and
`'+'` (resolved through the operator table). -/
theorem C9_string_literal_typing_witness :
    compileBasic sampleGram [.leaf PatTok.STRING "'x'"] none =
      .ok (.leafP (some 1) (some "x") none)
    ∧ compileBasic sampleGram [.leaf PatTok.STRING "'+'"] none =
      .ok (.leafP (some 14) (some "+") none) := by
  constructor
  · have h := C9_string_literal_typing sampleGram "'x'" [] none 'x' [] (by decide)
    simpa [sampleGram] using h
  · have h := C9_string_literal_typing sampleGram "'+'" [] none '+' [] (by decide)
    simpa [sampleGram] using h

/-- C10: a STRING basic pattern whose non-empty unescaped value starts
with a non-alphabetic character and is absent from the operator table
compiles without error to a leaf matcher with the kind absent and that
value: a matcher constrained only by literal text
(src/awpa/patcomp.py:147-149 and 183-187). -/
theorem C10_unmapped_literal_any_kind (g : PyGram) (raw : String)
    (rest : List PTree) (r : Option PTree) (c : Char) (cs : List Char)
    (hne : (g.evalString raw).data = c :: cs)
    (halpha : c.isAlpha = false)
    (hop : g.opmap (g.evalString raw) = none) :
    compileBasic g (.leaf PatTok.STRING raw :: rest) r =
      .ok (.leafP none (some (g.evalString raw)) none) := by
  rw [compileBasic_string]
  simp [typeOfLiteral, hne, halpha, hop]

/-- Witness for C10 at the literal `'~'`, which the sample operator table
does not map. -/
theorem C10_unmapped_literal_any_kind_witness :
    (sampleGram.evalString "'~'").data = '~' :: []
    ∧ ('~'.isAlpha = false)
    ∧ sampleGram.opmap (sampleGram.evalString "'~'") = none
    ∧ compileBasic sampleGram [.leaf PatTok.STRING "'~'"] none =
        .ok (.leafP none (some (sampleGram.evalString "'~'")) none) :=
  ⟨by decide, by decide, by decide,
   C10_unmapped_literal_any_kind sampleGram "'~'" [] none '~' []
     (by decide) (by decide) (by decide)⟩

end Awpa
